import Mathlib

/-!
Verification development for the adaptive-compression benchmark
(`python_client_benchmark.py`): a shallow embedding of the compression
strategy selector, the per-file level refinement, the network speed probe,
the benchmark executor loop, and the statistics aggregator, together with
theorems settling the behavioural properties of each component.

Machine reals (Python floats) are modelled by `ℚ`: every constant involved
(sizes in bytes divided by `2 ^ 20`, the factor `0.5`, the threshold and
throughput tables) is exactly representable in double precision, so the
comparisons performed by the code coincide with the rational ones.
Compression levels are `ℤ` (Python ints, where `base - 2` may go below zero
before clamping).
-/

/-- One tier of the `COMPRESSION_STRATEGY` table (`python_client_benchmark.py`,
lines 63-69): a name, a minimum network speed in MB/s and a compression level. -/
structure StrategyTier where
  name : String
  min_mbps : ℚ
  level : ℤ
deriving DecidableEq

/-- The `COMPRESSION_STRATEGY` table in the source's insertion order
(lines 63-69).  The code sorts the entries by `min_mbps` descending before
scanning; the insertion order is already strictly descending, so the sorted
order equals this list (see `COMPRESSION_STRATEGY_sorted`). -/
def COMPRESSION_STRATEGY : List StrategyTier :=
  [⟨"very_fast", 100, 1⟩, ⟨"fast", 50, 3⟩, ⟨"medium", 10, 6⟩,
   ⟨"slow", 1, 9⟩, ⟨"very_slow", 0, 15⟩]

/-- The scan in `select_compression_level` (lines 202-209): walk the tiers in
descending threshold order and return the level of the first tier whose
threshold the speed meets or exceeds; the default of 3 (line 199) survives
when no tier matches. -/
def scan_strategies : List StrategyTier → ℚ → ℤ
  | [], _ => 3
  | t :: rest, v => if t.min_mbps ≤ v then t.level else scan_strategies rest v

/-- Embedding of `select_compression_level` (lines 190-241): base compression level from
network speed. -/
def select_compression_level (network_speed_mbps : ℚ) : ℤ :=
  scan_strategies COMPRESSION_STRATEGY network_speed_mbps

/-- The `compression_speeds` table of `select_compression_level_for_file`
(line 259): estimated compression throughput in MB/s per level; `none` for
levels absent from the table. -/
def compression_speeds (level : ℤ) : Option ℚ :=
  if level = 1 then some 500
  else if level = 3 then some 200
  else if level = 6 then some 100
  else if level = 9 then some 40
  else if level = 15 then some 10
  else none

/-- The size-based adjustment of `select_compression_level_for_file`
(lines 256-276): `file_size_mb = file_size_bytes / (1024*1024)`; small files
cap the level at 1, medium-small files reduce it by 2 with floor 1, large
files on slow networks raise it. -/
def size_adjusted_level (file_size_bytes : ℕ) (network_speed_mbps : ℚ)
    (base_level : ℤ) : ℤ :=
  if (file_size_bytes : ℚ) / 1048576 < 1 then min base_level 1
  else if (file_size_bytes : ℚ) / 1048576 < 10 then max 1 (base_level - 2)
  else if 100 < (file_size_bytes : ℚ) / 1048576 then
    if network_speed_mbps < 10 then min 15 (base_level + 2)
    else if network_speed_mbps < 50 then min 9 (base_level + 1)
    else base_level
  else base_level

/-- The throughput guard of `select_compression_level_for_file`
(lines 278-286): look up the estimated compression speed with default 100,
and if it is below half the network speed, drop the level to 6 when above 6,
else to 3 when above 3 (a single step, with no re-check of the clamped
level). -/
def throughput_guard (network_speed_mbps : ℚ) (level : ℤ) : ℤ :=
  if (compression_speeds level).getD 100 < network_speed_mbps * (1 / 2) then
    if 6 < level then 6
    else if 3 < level then 3
    else level
  else level

/-- Embedding of `select_compression_level_for_file` (lines 243-291): size adjustment,
then the throughput guard, then the final clamp `max(1, min(22, level))`
(line 289). -/
def select_compression_level_for_file (file_size_bytes : ℕ)
    (network_speed_mbps : ℚ) (base_level : ℤ) : ℤ :=
  max 1 (min 22 (throughput_guard network_speed_mbps
    (size_adjusted_level file_size_bytes network_speed_mbps base_level)))

/-- The throughput guard as the specification words it (spec section 4.2):
when the chosen level's table throughput is below half the network speed,
clamp the level down to 6, then to 3, whichever first itself satisfies the
estimated-throughput guard.  Levels absent from the table are left alone.
This definition follows the spec's words and exists only to be compared
against `throughput_guard`, which is translated from the code. -/
def spec_guard_clamp (network_speed_mbps : ℚ) (level : ℤ) : ℤ :=
  match compression_speeds level with
  | none => level
  | some est =>
    if est < network_speed_mbps * (1 / 2) then
      if 6 < level ∧ ¬ ((100 : ℚ) < network_speed_mbps * (1 / 2)) then 6
      else if 3 < level then 3
      else level
    else level

/-- The per-file refinement as the specification words it (spec section 4.2):
the size-based adjustments, then the spec's version of the throughput guard,
then the final clamp to `[1, 22]`.  Follows the spec's words, for comparison
with `select_compression_level_for_file`. -/
def spec_select_file_level (file_size_bytes : ℕ) (network_speed_mbps : ℚ)
    (base_level : ℤ) : ℤ :=
  max 1 (min 22 (spec_guard_clamp network_speed_mbps
    (size_adjusted_level file_size_bytes network_speed_mbps base_level)))

/-- One successful probe sample of `test_network_speed` (lines 134-168):
the test file's size in bytes and the measured upload and download times in
seconds. -/
structure ProbeSample where
  file_size : ℕ
  upload_time : ℚ
  download_time : ℚ
deriving DecidableEq

/-- The averaged network estimate returned by `test_network_speed`
(lines 178-188). -/
structure NetworkEstimate where
  avg_upload_mbps : ℚ
  avg_download_mbps : ℚ
  avg_latency_ms : ℚ
deriving DecidableEq

/-- Upload speed derived from one sample (line 147):
`(file_size / (1024*1024)) / upload_time`. -/
def sample_upload_mbps (s : ProbeSample) : ℚ :=
  (s.file_size : ℚ) / 1048576 / s.upload_time

/-- Download speed derived from one sample (line 154). -/
def sample_download_mbps (s : ProbeSample) : ℚ :=
  (s.file_size : ℚ) / 1048576 / s.download_time

/-- Round-trip latency derived from one sample (line 157):
`(upload_time + download_time) * 1000 / 2`. -/
def sample_latency_ms (s : ProbeSample) : ℚ :=
  (s.upload_time + s.download_time) * 1000 / 2

/-- Embedding of `test_network_speed` (lines 114-188).  Each element of `samples` is one
iteration of the sampling loop: `none` when the iteration raised and was
skipped (lines 170-172), `some s` when it succeeded and appended its
measurements.  If no sample succeeded, the function returns
`(None, None, None)` (lines 174-176), modelled as `none`; otherwise the
arithmetic means over the successful samples (lines 178-188). -/
def test_network_speed (samples : List (Option ProbeSample)) :
    Option NetworkEstimate :=
  let oks := samples.filterMap id
  let ups := oks.map sample_upload_mbps
  let downs := oks.map sample_download_mbps
  let lats := oks.map sample_latency_ms
  if ups.isEmpty then none
  else some ⟨ups.sum / (ups.length : ℚ), downs.sum / (downs.length : ℚ),
             lats.sum / (lats.length : ℚ)⟩

/-- The caller's reaction to the probe in `main` (lines 977-983): when the
probe failed, compression is disabled (level 0); otherwise the base level is
selected from the average of the upload and download speeds. -/
def main_compression_decision (probe : Option NetworkEstimate) : ℤ :=
  match probe with
  | none => 0
  | some e => select_compression_level ((e.avg_upload_mbps + e.avg_download_mbps) / 2)

/-- The `ENABLE_ADAPTIVE_COMPRESSION` configuration constant (line 40). -/
def ENABLE_ADAPTIVE_COMPRESSION : Bool := true

/-- The environment's responses for one (run, file) attempt of
`run_performance_test` (lines 589-782).  Each field records one observable
the code reads: whether the local file exists, the sizes and checksums
involved, whether each remote operation raised, and the outcomes of the
decompression stage.  Exceptions raised by `put`, `get` and the
decompression call are the ones caught by the `try` of line 637. -/
structure AttemptOutcome where
  run_num : ℕ
  filename : String
  file_exists : Bool
  original_size : ℕ
  original_checksum : ℕ
  compress_ok : Bool
  compressed_size : ℕ
  compress_time : ℚ
  put_raises : Bool
  upload_time : ℚ
  irods_stat : Option ℕ
  get_raises : Bool
  download_time : ℚ
  download_exists : Bool
  download_size : ℕ
  meta_read_ok : Bool
  decompress_raises : Bool
  decompressed_exists : Bool
  decompress_time : ℚ
  final_size : ℕ
  final_checksum : ℕ
deriving DecidableEq

/-- One row of `results` appended at lines 755-768. -/
structure TransferRecord where
  run : ℕ
  filename : String
  original_size_bytes : ℕ
  transfer_size_bytes : ℕ
  compression_level : ℤ
  compression_ratio_percent : ℚ
  compress_time : ℚ
  upload_time : ℚ
  download_time : ℚ
  decompress_time : ℚ
  upload_throughput_mbps : ℚ
  download_throughput_mbps : ℚ
deriving DecidableEq

/-- Embedding of `verify_irods_upload` (lines 345-359): `none` for `irods_stat` models an
exception from the stat call or a `None` size (both yield `(False, 0)`);
a zero size fails, a size different from the expected one fails. -/
def verify_irods_upload (irods_stat : Option ℕ) (expected_size : ℕ) :
    Bool × ℕ :=
  match irods_stat with
  | none => (false, 0)
  | some s =>
    if s = 0 then (false, 0)
    else if s ≠ expected_size then (false, s)
    else (true, s)

/-- Embedding of `verify_local_download` (lines 361-371): a missing file fails with size
0; a zero or mismatched size fails. -/
def verify_local_download (file_present : Bool) (actual_size : ℕ)
    (expected_size : ℕ) : Bool × ℕ :=
  if file_present = false then (false, 0)
  else if actual_size = 0 ∨ actual_size ≠ expected_size then (false, actual_size)
  else (true, actual_size)

/-- The size of the artifact that is uploaded (lines 611-630): the original
size when the level is 0 (no compression), the compressed artifact's size
otherwise. -/
def attempt_transfer_size (level : ℤ) (o : AttemptOutcome) : ℕ :=
  if level = 0 then o.original_size else o.compressed_size

/-- The compression ratio recorded for the attempt (lines 617 and 631):
0 for uncompressed runs, `(1 - transfer_size / original_size) * 100` when
the original size is positive, else 0. -/
def attempt_ratio_pct (level : ℤ) (o : AttemptOutcome) : ℚ :=
  if level = 0 then 0
  else if 0 < o.original_size then
    (1 - (attempt_transfer_size level o : ℚ) / (o.original_size : ℚ)) * 100
  else 0

/-- One (run, file) attempt of `run_performance_test` (lines 589-782),
returning the record appended to `results` on success and `none` on any
failure path (each of which executes `failed_runs += 1` and `continue`).
The guards appear in the source's order: missing input file (line 593),
missing compressed artifact (line 625), an exception from `put` (line 642,
re-raised into the handler of line 770), the upload size check (line 651),
an exception from `get` (line 676), the download size check (line 679), an
exception while decompressing (lines 701-703, reaching the handler; no
decompression call is made when metadata is enabled but unreadable), the
existence check on the decompressed file (line 707, which fails when
metadata was enabled but unreadable since nothing was written), and the
final size/checksum verification (lines 726-740). -/
def run_attempt (enable_verification enable_metadata : Bool) (level : ℤ)
    (o : AttemptOutcome) : Option TransferRecord :=
  if o.file_exists = false then none
  else if level ≠ 0 ∧ o.compress_ok = false then none
  else if o.put_raises = true then none
  else if (verify_irods_upload o.irods_stat (attempt_transfer_size level o)).1 = false then none
  else if o.get_raises = true then none
  else if (verify_local_download o.download_exists o.download_size
      (attempt_transfer_size level o)).1 = false then none
  else if level ≠ 0 ∧ (enable_metadata = false ∨ o.meta_read_ok = true) ∧
      o.decompress_raises = true then none
  else if (if level = 0 then true
           else if enable_metadata = true ∧ o.meta_read_ok = false then false
           else o.decompressed_exists) = false then none
  else if ¬ (o.final_size = o.original_size ∧
      (enable_verification = true → o.final_checksum = o.original_checksum)) then none
  else some
    { run := o.run_num
      filename := o.filename
      original_size_bytes := o.original_size
      transfer_size_bytes := attempt_transfer_size level o
      compression_level := level
      compression_ratio_percent := attempt_ratio_pct level o
      compress_time := o.compress_time
      upload_time := o.upload_time
      download_time := o.download_time
      decompress_time := if level = 0 then 0 else o.decompress_time
      upload_throughput_mbps :=
        if 0 < o.upload_time then
          (attempt_transfer_size level o : ℚ) / 1048576 / o.upload_time
        else 0
      download_throughput_mbps :=
        if 0 < o.download_time then
          (attempt_transfer_size level o : ℚ) / 1048576 / o.download_time
        else 0 }

/-- The level the executor uses for one attempt (lines 603-608): when
adaptive compression is enabled and a (truthy, hence nonzero) network speed
was passed, `select_compression_level_for_file`; otherwise 0. -/
def attempt_level (network_speed : Option ℚ) (base_level : ℤ)
    (o : AttemptOutcome) : ℤ :=
  match network_speed with
  | some v =>
    if ENABLE_ADAPTIVE_COMPRESSION = true ∧ v ≠ 0 then
      select_compression_level_for_file o.original_size v base_level
    else 0
  | none => 0

/-- One step of the executor's bookkeeping: append the record on success,
increment `failed_runs` on failure. -/
def exec_step (enable_verification enable_metadata : Bool)
    (network_speed : Option ℚ) (base_level : ℤ)
    (acc : List TransferRecord × ℕ) (o : AttemptOutcome) :
    List TransferRecord × ℕ :=
  match run_attempt enable_verification enable_metadata
      (attempt_level network_speed base_level o) o with
  | some r => (acc.1 ++ [r], acc.2)
  | none => (acc.1, acc.2 + 1)

/-- Embedding of `run_performance_test` (lines 571-787).  `attempts` lists the
environment outcomes of the `test_runs × test_files` nested loop in
iteration order; the function folds over all of them, returning the
collected records and the final `failed_runs` count.  The source has no
early-exit: the loops of lines 589-590 run to completion. -/
def run_performance_test (enable_verification enable_metadata : Bool)
    (network_speed : Option ℚ) (base_level : ℤ)
    (attempts : List AttemptOutcome) : List TransferRecord × ℕ :=
  attempts.foldl
    (exec_step enable_verification enable_metadata network_speed base_level)
    ([], 0)

/-- Everything that must hold for one attempt to reach the `results.append`
of line 755: each step of the round trip succeeded and the final size and
checksum match the original. -/
def attempt_fully_verified (enable_verification enable_metadata : Bool)
    (level : ℤ) (o : AttemptOutcome) : Prop :=
  o.file_exists = true ∧
  (level ≠ 0 → o.compress_ok = true) ∧
  o.put_raises = false ∧
  (verify_irods_upload o.irods_stat (attempt_transfer_size level o)).1 = true ∧
  o.get_raises = false ∧
  (verify_local_download o.download_exists o.download_size
    (attempt_transfer_size level o)).1 = true ∧
  (level ≠ 0 → (enable_metadata = true → o.meta_read_ok = true) ∧
    o.decompress_raises = false ∧ o.decompressed_exists = true) ∧
  o.final_size = o.original_size ∧
  (enable_verification = true → o.final_checksum = o.original_checksum)

instance (ev em : Bool) (level : ℤ) (o : AttemptOutcome) :
    Decidable (attempt_fully_verified ev em level o) := by
  unfold attempt_fully_verified
  infer_instance

/-- The aggregate statistics dictionary returned by
`calculate_aggregate_statistics` (lines 813-825). -/
structure AggregateStats where
  total_runs : ℕ
  files_tested : List String
  total_upload_time : ℚ
  total_download_time : ℚ
  total_compress_time : ℚ
  total_decompress_time : ℚ
  avg_upload_time : ℚ
  avg_download_time : ℚ
  avg_upload_throughput : ℚ
  avg_download_throughput : ℚ
  files_data : List (String × List TransferRecord)
deriving DecidableEq

/-- One step of the `files_data` grouping loop (lines 797-801): append the
record to its filename's bucket, creating the bucket at the end (Python
dicts preserve insertion order) when the filename is new. -/
def insert_record (acc : List (String × List TransferRecord))
    (r : TransferRecord) : List (String × List TransferRecord) :=
  if acc.any (fun p => p.1 == r.filename) then
    acc.map (fun p => if p.1 = r.filename then (p.1, p.2 ++ [r]) else p)
  else acc ++ [(r.filename, [r])]

/-- The `files_data` dictionary (lines 796-801), as an insertion-ordered
association list. -/
def group_by_filename (results : List TransferRecord) :
    List (String × List TransferRecord) :=
  results.foldl insert_record []

/-- The filenames of the input records in first-seen order, defined
directly (not via the grouping), for stating what `files_tested` is. -/
def first_seen_filenames (results : List TransferRecord) : List String :=
  results.foldl
    (fun acc r => if r.filename ∈ acc then acc else acc ++ [r.filename]) []

/-- Embedding of `calculate_aggregate_statistics` (lines 789-825): `None` on an empty
record list, otherwise totals, averages over the record count, and the
per-file grouping with `files_tested = list(files_data.keys())`. -/
def calculate_aggregate_statistics (results : List TransferRecord) :
    Option AggregateStats :=
  if results = [] then none
  else some
    { total_runs := results.length
      files_tested := (group_by_filename results).map Prod.fst
      total_upload_time := (results.map TransferRecord.upload_time).sum
      total_download_time := (results.map TransferRecord.download_time).sum
      total_compress_time := (results.map TransferRecord.compress_time).sum
      total_decompress_time := (results.map TransferRecord.decompress_time).sum
      avg_upload_time :=
        (results.map TransferRecord.upload_time).sum / (results.length : ℚ)
      avg_download_time :=
        (results.map TransferRecord.download_time).sum / (results.length : ℚ)
      avg_upload_throughput :=
        (results.map TransferRecord.upload_throughput_mbps).sum / (results.length : ℚ)
      avg_download_throughput :=
        (results.map TransferRecord.download_throughput_mbps).sum / (results.length : ℚ)
      files_data := group_by_filename results }

/-- An environment outcome for which every step of an uncompressed (level 0)
round trip succeeds: a 100-byte file whose upload, stat, download and final
verification all agree. -/
def base_ok_attempt : AttemptOutcome :=
  { run_num := 0
    filename := "f"
    file_exists := true
    original_size := 100
    original_checksum := 7
    compress_ok := true
    compressed_size := 80
    compress_time := 1
    put_raises := false
    upload_time := 1
    irods_stat := some 100
    get_raises := false
    download_time := 1
    download_exists := true
    download_size := 100
    meta_read_ok := true
    decompress_raises := false
    decompressed_exists := true
    decompress_time := 1
    final_size := 100
    final_checksum := 7 }

/-- The same environment with the input file missing: the attempt fails at
the first check. -/
def base_fail_attempt : AttemptOutcome :=
  { base_ok_attempt with file_exists := false }

/-- Ten attempts in iteration order: the first six fail (missing input
file), the last four succeed. -/
def c1_attempts : List AttemptOutcome :=
  [{ base_fail_attempt with run_num := 1 }, { base_fail_attempt with run_num := 2 },
   { base_fail_attempt with run_num := 3 }, { base_fail_attempt with run_num := 4 },
   { base_fail_attempt with run_num := 5 }, { base_fail_attempt with run_num := 6 },
   { base_ok_attempt with run_num := 7 }, { base_ok_attempt with run_num := 8 },
   { base_ok_attempt with run_num := 9 }, { base_ok_attempt with run_num := 10 }]

/-- An incompressible 2 MiB file: the zstd artifact (2 200 000 bytes) is
larger than the original (2 097 152 bytes), and the whole round trip
verifies.  With network speed 30 MB/s and base level 6 the executor picks
level `max 1 (6 - 2) = 4` for it. -/
def c9_attempt : AttemptOutcome :=
  { base_ok_attempt with
    original_size := 2097152
    compressed_size := 2200000
    irods_stat := some 2200000
    download_size := 2200000
    final_size := 2097152 }

/-- The record `run_attempt` emits for `c9_attempt` at level 4. -/
def c9_record : TransferRecord :=
  { run := 0
    filename := "f"
    original_size_bytes := 2097152
    transfer_size_bytes := 2200000
    compression_level := 4
    compression_ratio_percent := (1 - (2200000 : ℚ) / 2097152) * 100
    compress_time := 1
    upload_time := 1
    download_time := 1
    decompress_time := 1
    upload_throughput_mbps := (2200000 : ℚ) / 1048576 / 1
    download_throughput_mbps := (2200000 : ℚ) / 1048576 / 1 }

/-- A sample record for exercising the aggregator. -/
def sample_record_b : TransferRecord :=
  { run := 1
    filename := "b"
    original_size_bytes := 100
    transfer_size_bytes := 80
    compression_level := 3
    compression_ratio_percent := 20
    compress_time := 1
    upload_time := 2
    download_time := 3
    decompress_time := 4
    upload_throughput_mbps := 5
    download_throughput_mbps := 6 }

/-- A second sample record with a different filename. -/
def sample_record_a : TransferRecord :=
  { sample_record_b with run := 2, filename := "a" }

/-- The `COMPRESSION_STRATEGY` table is strictly descending in `min_mbps`,
so the code's descending sort leaves it in insertion order and the scan of
`scan_strategies` visits it exactly as `sorted(..., reverse=True)` does. -/
theorem COMPRESSION_STRATEGY_sorted :
    COMPRESSION_STRATEGY.Pairwise (fun a b => b.min_mbps < a.min_mbps) := by
  norm_num [COMPRESSION_STRATEGY, List.pairwise_cons]

/-- C3: for every non-negative network speed, `select_compression_level`
returns exactly the tier table value: 1 for speed ≥ 100, 3 on [50, 100),
6 on [10, 50), 9 on [1, 10) and 15 below 1, a threshold tie resolving to
the faster-network tier. -/
theorem claim_C3_tier_table (v : ℚ) (hv : 0 ≤ v) :
    select_compression_level v =
      if 100 ≤ v then 1 else if 50 ≤ v then 3 else if 10 ≤ v then 6
      else if 1 ≤ v then 9 else 15 := by
  simp only [select_compression_level, COMPRESSION_STRATEGY, scan_strategies]
  split_ifs <;> first | rfl | linarith

/-- Witness for C3 at the concrete speed 0: the slowest tier's level 15. -/
theorem claim_C3_witness : select_compression_level 0 = 15 := by
  have h := claim_C3_tier_table 0 le_rfl
  norm_num at h
  exact h

/-- C5: every file smaller than 1 MiB is compressed at level 1, whatever
the (non-negative) network speed and the base level in `[1, 22]`. -/
theorem claim_C5_small_file_cap (file_size_bytes : ℕ) (v : ℚ) (b : ℤ)
    (hsize : file_size_bytes < 1048576) (hv : 0 ≤ v)
    (hb1 : 1 ≤ b) (hb2 : b ≤ 22) :
    select_compression_level_for_file file_size_bytes v b = 1 := by
  have hmb : (file_size_bytes : ℚ) / 1048576 < 1 := by
    rw [div_lt_one (by norm_num)]
    exact_mod_cast hsize
  have h1 : size_adjusted_level file_size_bytes v b = 1 := by
    unfold size_adjusted_level
    rw [if_pos hmb]
    omega
  have h2 : throughput_guard v 1 = 1 := by
    unfold throughput_guard
    split_ifs <;> omega
  unfold select_compression_level_for_file
  rw [h1, h2]
  decide

/-- Witness for C5: a 500 KB file at 5 MB/s with base level 9 gets level 1. -/
theorem claim_C5_witness : select_compression_level_for_file 512000 5 9 = 1 :=
  claim_C5_small_file_cap 512000 5 9 (by norm_num) (by norm_num)
    (by norm_num) (by norm_num)

/-- Counterexample to C2: at file size 50 MiB, network speed 300 MB/s and
base level 9 the code returns level 6, whose table throughput (100 MB/s) is
below half the network speed (150 MB/s) while level 3's (200 MB/s) is not;
the spec-worded guard would return 3, so the returned level is not "the
first of 6, 3 that itself satisfies the estimated-throughput guard". -/
theorem claim_C2_counterexample :
    select_compression_level_for_file (50 * 1048576) 300 9 = 6 ∧
    (compression_speeds 6).getD 100 < 300 * (1 / 2 : ℚ) ∧
    ¬ (compression_speeds 3).getD 100 < 300 * (1 / 2 : ℚ) ∧
    spec_guard_clamp 300 (size_adjusted_level (50 * 1048576) 300 9) = 3 := by
  refine ⟨?_, by norm_num [compression_speeds], by norm_num [compression_speeds], ?_⟩
  · norm_num [select_compression_level_for_file, throughput_guard,
      size_adjusted_level, compression_speeds]
  · norm_num [spec_guard_clamp, size_adjusted_level, compression_speeds]

/-- C2 amended: when the level produced by the size- and speed-based
adjustments has estimated compression throughput below half the network
speed, the guard takes a single step — to 6 when the level is above 6, else
to 3 when above 3, else no change — without re-checking whether the clamped
level itself satisfies the throughput guard; the final `[1, 22]` clamp then
applies. -/
theorem claim_C2_amended_one_shot_guard (file_size_bytes : ℕ) (v : ℚ) (b : ℤ)
    (h : (compression_speeds (size_adjusted_level file_size_bytes v b)).getD 100
      < v * (1 / 2)) :
    select_compression_level_for_file file_size_bytes v b =
      max 1 (min 22
        (if 6 < size_adjusted_level file_size_bytes v b then 6
         else if 3 < size_adjusted_level file_size_bytes v b then 3
         else size_adjusted_level file_size_bytes v b)) := by
  unfold select_compression_level_for_file throughput_guard
  rw [if_pos h]

/-- Witness for the amended C2 at file size 50 MiB, speed 300, base 9:
the guard fires (40 < 150) and one-shot clamping yields 6. -/
theorem claim_C2_witness :
    select_compression_level_for_file (50 * 1048576) 300 9 = 6 := by
  have h := claim_C2_amended_one_shot_guard (50 * 1048576) 300 9
    (by norm_num [size_adjusted_level, compression_speeds])
  rw [h]
  norm_num [size_adjusted_level]

/-- C4: at file size 200 MiB, speed 5 MB/s and base level 9, the code
applies the documented ordering — raise by 2 capped at 15 (9 → 11), the
throughput guard (inactive: the estimate is not below 2.5 MB/s), the final
`[1, 22]` clamp (inactive) — and returns 11, the very level the
spec-worded ordering produces. -/
theorem claim_C4_ordering_value :
    select_compression_level_for_file (200 * 1048576) 5 9 = 11 ∧
    spec_select_file_level (200 * 1048576) 5 9 = 11 ∧
    select_compression_level_for_file (200 * 1048576) 5 9 =
      spec_select_file_level (200 * 1048576) 5 9 := by
  norm_num [select_compression_level_for_file, spec_select_file_level,
    throughput_guard, spec_guard_clamp, size_adjusted_level, compression_speeds]

/-- C10: for every level absent from the `compression_speeds` table, the
guard's estimated throughput defaults to 100 MB/s, so the guard changes
such a level only when the network speed exceeds 200 MB/s. -/
theorem claim_C10_default_throughput (v : ℚ) (level : ℤ)
    (h : compression_speeds level = none) :
    (compression_speeds level).getD 100 = 100 ∧
    (throughput_guard v level ≠ level → 200 < v) := by
  constructor
  · rw [h]
    rfl
  · intro hne
    unfold throughput_guard at hne
    rw [h] at hne
    by_contra hv
    push_neg at hv
    have hguard : ¬ ((none : Option ℚ).getD 100 < v * (1 / 2)) := by
      simp only [Option.getD_none]
      intro hlt
      linarith
    rw [if_neg hguard] at hne
    exact hne rfl

/-- Witness for C10 at level 11 and speed 150: the default estimate is 100
and the guard leaves level 11 unchanged since 150 is not above 200. -/
theorem claim_C10_witness :
    (compression_speeds 11).getD 100 = 100 ∧
    (throughput_guard 150 11 ≠ 11 → 200 < (150 : ℚ)) :=
  claim_C10_default_throughput 150 11 (by norm_num [compression_speeds])

/-- A successful upload verification pins the remote size: it is exactly
the expected size and nonzero. -/
theorem verify_irods_upload_true {irods_stat : Option ℕ} {expected : ℕ}
    (h : (verify_irods_upload irods_stat expected).1 = true) :
    irods_stat = some expected ∧ expected ≠ 0 := by
  match irods_stat with
  | none => simp [verify_irods_upload] at h
  | some s =>
    simp only [verify_irods_upload] at h
    split_ifs at h with h1 h2
    push_neg at h2
    subst h2
    exact ⟨rfl, h1⟩

/-- An attempt emits a record exactly when every step of the attempt
succeeded and the final size and checksum match. -/
theorem run_attempt_isSome_iff (ev em : Bool) (level : ℤ)
    (o : AttemptOutcome) :
    (run_attempt ev em level o).isSome ↔
      attempt_fully_verified ev em level o := by
  unfold run_attempt attempt_fully_verified
  by_cases h1 : o.file_exists = false
  · rw [if_pos h1]
    simp only [Option.isSome_none, Bool.false_eq_true, false_iff]
    intro hc
    rw [hc.1] at h1
    exact Bool.noConfusion h1
  rw [if_neg h1]
  have hfe : o.file_exists = true := by simpa using h1
  by_cases h2 : level ≠ 0 ∧ o.compress_ok = false
  · rw [if_pos h2]
    simp only [Option.isSome_none, Bool.false_eq_true, false_iff]
    intro hc
    have hco := hc.2.1 h2.1
    rw [hco] at h2
    exact Bool.noConfusion h2.2
  rw [if_neg h2]
  by_cases h3 : o.put_raises = true
  · rw [if_pos h3]
    simp only [Option.isSome_none, Bool.false_eq_true, false_iff]
    intro hc
    rw [hc.2.2.1] at h3
    exact Bool.noConfusion h3
  rw [if_neg h3]
  have hpr : o.put_raises = false := by simpa using h3
  by_cases h4 : (verify_irods_upload o.irods_stat (attempt_transfer_size level o)).1 = false
  · rw [if_pos h4]
    simp only [Option.isSome_none, Bool.false_eq_true, false_iff]
    intro hc
    rw [hc.2.2.2.1] at h4
    exact Bool.noConfusion h4
  rw [if_neg h4]
  have hup : (verify_irods_upload o.irods_stat (attempt_transfer_size level o)).1 = true := by
    simpa using h4
  by_cases h5 : o.get_raises = true
  · rw [if_pos h5]
    simp only [Option.isSome_none, Bool.false_eq_true, false_iff]
    intro hc
    rw [hc.2.2.2.2.1] at h5
    exact Bool.noConfusion h5
  rw [if_neg h5]
  have hgr : o.get_raises = false := by simpa using h5
  by_cases h6 : (verify_local_download o.download_exists o.download_size
      (attempt_transfer_size level o)).1 = false
  · rw [if_pos h6]
    simp only [Option.isSome_none, Bool.false_eq_true, false_iff]
    intro hc
    rw [hc.2.2.2.2.2.1] at h6
    exact Bool.noConfusion h6
  rw [if_neg h6]
  have hdl : (verify_local_download o.download_exists o.download_size
      (attempt_transfer_size level o)).1 = true := by simpa using h6
  by_cases h7 : level ≠ 0 ∧ (em = false ∨ o.meta_read_ok = true) ∧ o.decompress_raises = true
  · rw [if_pos h7]
    simp only [Option.isSome_none, Bool.false_eq_true, false_iff]
    intro hc
    have hd := hc.2.2.2.2.2.2.1 h7.1
    rw [hd.2.1] at h7
    exact Bool.noConfusion h7.2.2
  rw [if_neg h7]
  by_cases h8 : (if level = 0 then true
      else if em = true ∧ o.meta_read_ok = false then false
      else o.decompressed_exists) = false
  · rw [if_pos h8]
    simp only [Option.isSome_none, Bool.false_eq_true, false_iff]
    intro hc
    by_cases hlvl : level = 0
    · rw [if_pos hlvl] at h8
      exact Bool.noConfusion h8
    rw [if_neg hlvl] at h8
    have hd := hc.2.2.2.2.2.2.1 hlvl
    by_cases hm : em = true ∧ o.meta_read_ok = false
    · have := hd.1 hm.1
      rw [this] at hm
      exact Bool.noConfusion hm.2
    rw [if_neg hm] at h8
    rw [hd.2.2] at h8
    exact Bool.noConfusion h8
  rw [if_neg h8]
  by_cases h9 : ¬ (o.final_size = o.original_size ∧
      (ev = true → o.final_checksum = o.original_checksum))
  · rw [if_pos h9]
    simp only [Option.isSome_none, Bool.false_eq_true, false_iff]
    intro hc
    exact h9 ⟨hc.2.2.2.2.2.2.2.1, hc.2.2.2.2.2.2.2.2⟩
  rw [if_neg h9]
  rw [not_not] at h9
  simp only [Option.isSome_some, eq_self_iff_true, true_iff]
  refine ⟨hfe, ?_, hpr, hup, hgr, hdl, ?_, h9.1, h9.2⟩
  · intro hlvl
    by_contra hco
    exact h2 ⟨hlvl, by simpa using hco⟩
  · intro hlvl
    rw [if_neg hlvl] at h8
    have hmok : em = true → o.meta_read_ok = true := by
      intro hem
      by_contra hm
      rw [if_pos ⟨hem, by simpa using hm⟩] at h8
      exact h8 rfl
    have hdex : o.decompressed_exists = true := by
      by_cases hm : em = true ∧ o.meta_read_ok = false
      · exact absurd (hmok hm.1) (by simp [hm.2])
      · rw [if_neg hm] at h8
        simpa using h8
    have hdr : o.decompress_raises = false := by
      by_contra hdr
      apply h7
      refine ⟨hlvl, ?_, by simpa using hdr⟩
      by_cases hem : em = true
      · exact Or.inr (hmok hem)
      · exact Or.inl (by simpa using hem)
    exact ⟨hmok, hdr, hdex⟩

/-- Every attempt the executor folds over is accounted for exactly once:
as a collected record or as a counted failure. -/
theorem exec_fold_counts (ev em : Bool) (speed : Option ℚ) (b : ℤ) :
    ∀ (attempts : List AttemptOutcome) (acc : List TransferRecord × ℕ),
      (attempts.foldl (exec_step ev em speed b) acc).1.length +
        (attempts.foldl (exec_step ev em speed b) acc).2 =
        acc.1.length + acc.2 + attempts.length := by
  intro attempts
  induction attempts with
  | nil =>
    intro acc
    simp
  | cons o rest ih =>
    intro acc
    rw [List.foldl_cons, ih]
    rcases hra : run_attempt ev em (attempt_level speed b o) o with _ | r <;>
      simp [exec_step, hra, List.length_append] <;> omega

/-- C1 amended: `run_performance_test` never aborts early.  Whatever the
failure pattern, every (run, file) attempt is issued: each one either
contributes a record or increments the failure counter, so the record count
plus the failure count always equals the number of attempts, and all
successful records are returned. -/
theorem claim_C1_amended_no_early_abort (ev em : Bool) (speed : Option ℚ)
    (b : ℤ) (attempts : List AttemptOutcome) :
    (run_performance_test ev em speed b attempts).1.length +
      (run_performance_test ev em speed b attempts).2 = attempts.length := by
  have h := exec_fold_counts ev em speed b attempts ([], 0)
  simpa [run_performance_test] using h

/-- Counterexample to C1: ten attempts whose first six fail.  With a 50 %
threshold the claim demands that after the sixth failure no further attempt
is issued, so no record could be returned; the code instead issues attempts
7 to 10 and returns their four records. -/
theorem claim_C1_counterexample :
    (run_performance_test true true none 3 c1_attempts).2 = 6 ∧
    (run_performance_test true true none 3 c1_attempts).1.map
      TransferRecord.run = [7, 8, 9, 10] := by
  decide

/-- C7: with verification enabled, one (run, file) attempt emits a
`TransferRecord` exactly when the whole round trip verified — every step
succeeded and the final size and checksum equal the original's — and on
any step failure or mismatch the executor's step emits nothing and
increments the failure counter instead. -/
theorem claim_C7_record_iff_verified (em : Bool) (speed : Option ℚ) (b : ℤ)
    (o : AttemptOutcome) (acc : List TransferRecord × ℕ) :
    ((run_attempt true em (attempt_level speed b o) o).isSome ↔
      attempt_fully_verified true em (attempt_level speed b o) o) ∧
    (¬ attempt_fully_verified true em (attempt_level speed b o) o →
      exec_step true em speed b acc o = (acc.1, acc.2 + 1)) ∧
    (attempt_fully_verified true em (attempt_level speed b o) o →
      ∃ r, exec_step true em speed b acc o = (acc.1 ++ [r], acc.2)) := by
  refine ⟨run_attempt_isSome_iff true em _ o, ?_, ?_⟩
  · intro hnv
    rcases hra : run_attempt true em (attempt_level speed b o) o with _ | r
    · unfold exec_step
      rw [hra]
    · exact absurd ((run_attempt_isSome_iff true em _ o).mp (by rw [hra]; rfl)) hnv
  · intro hv
    have hs := (run_attempt_isSome_iff true em (attempt_level speed b o) o).mpr hv
    rcases hra : run_attempt true em (attempt_level speed b o) o with _ | r
    · rw [hra] at hs
      exact absurd hs (by simp)
    · refine ⟨r, ?_⟩
      unfold exec_step
      rw [hra]

/-- Witness for C7: the attempt whose input file is missing emits no record
and bumps the failure counter from 0 to 1. -/
theorem claim_C7_witness :
    exec_step true true none 3 ([], 0) base_fail_attempt = ([], 1) :=
  (claim_C7_record_iff_verified true none 3 base_fail_attempt ([], 0)).2.1
    (by decide)

/-- An emitted record carries the ratio computed at lines 617/631 and
implies that the upload size verification passed. -/
theorem run_attempt_some_ratio (ev em : Bool) (level : ℤ)
    (o : AttemptOutcome) (r : TransferRecord)
    (h : run_attempt ev em level o = some r) :
    r.compression_ratio_percent = attempt_ratio_pct level o ∧
    (verify_irods_upload o.irods_stat (attempt_transfer_size level o)).1 = true := by
  unfold run_attempt at h
  by_cases h1 : o.file_exists = false
  · rw [if_pos h1] at h
    exact absurd h (by simp)
  rw [if_neg h1] at h
  by_cases h2 : level ≠ 0 ∧ o.compress_ok = false
  · rw [if_pos h2] at h
    exact absurd h (by simp)
  rw [if_neg h2] at h
  by_cases h3 : o.put_raises = true
  · rw [if_pos h3] at h
    exact absurd h (by simp)
  rw [if_neg h3] at h
  by_cases h4 : (verify_irods_upload o.irods_stat (attempt_transfer_size level o)).1 = false
  · rw [if_pos h4] at h
    exact absurd h (by simp)
  rw [if_neg h4] at h
  by_cases h5 : o.get_raises = true
  · rw [if_pos h5] at h
    exact absurd h (by simp)
  rw [if_neg h5] at h
  by_cases h6 : (verify_local_download o.download_exists o.download_size
      (attempt_transfer_size level o)).1 = false
  · rw [if_pos h6] at h
    exact absurd h (by simp)
  rw [if_neg h6] at h
  by_cases h7 : level ≠ 0 ∧ (em = false ∨ o.meta_read_ok = true) ∧ o.decompress_raises = true
  · rw [if_pos h7] at h
    exact absurd h (by simp)
  rw [if_neg h7] at h
  by_cases h8 : (if level = 0 then true
      else if em = true ∧ o.meta_read_ok = false then false
      else o.decompressed_exists) = false
  · rw [if_pos h8] at h
    exact absurd h (by simp)
  rw [if_neg h8] at h
  by_cases h9 : ¬ (o.final_size = o.original_size ∧
      (ev = true → o.final_checksum = o.original_checksum))
  · rw [if_pos h9] at h
    exact absurd h (by simp)
  rw [if_neg h9] at h
  injection h with h
  rw [← h]
  exact ⟨rfl, by simpa using h4⟩

/-- C9 amended: every emitted record's `compression_ratio` is strictly
below 100; it is 0 for uncompressed (level 0) runs and equals
`(1 - transferred/original) * 100` for compressed runs with a positive
original size — a quantity that is negative whenever the compressed
artifact is larger than the original, since the code applies no lower
clamp. -/
theorem claim_C9_amended_ratio_bounds (ev em : Bool) (level : ℤ)
    (o : AttemptOutcome) (r : TransferRecord)
    (h : run_attempt ev em level o = some r) :
    r.compression_ratio_percent < 100 ∧
    (level = 0 → r.compression_ratio_percent = 0) ∧
    (level ≠ 0 → 0 < o.original_size →
      r.compression_ratio_percent =
        (1 - (o.compressed_size : ℚ) / (o.original_size : ℚ)) * 100) := by
  obtain ⟨hratio, hup⟩ := run_attempt_some_ratio ev em level o r h
  obtain ⟨hstat, hts⟩ := verify_irods_upload_true hup
  rw [hratio]
  unfold attempt_ratio_pct
  by_cases hlvl : level = 0
  · rw [if_pos hlvl]
    exact ⟨by norm_num, fun _ => rfl, fun hne => absurd hlvl hne⟩
  rw [if_neg hlvl]
  have htsc : attempt_transfer_size level o = o.compressed_size := by
    unfold attempt_transfer_size
    rw [if_neg hlvl]
  rw [htsc] at hts
  by_cases hos : 0 < o.original_size
  · rw [if_pos hos]
    refine ⟨?_, fun h0 => absurd h0 hlvl, fun _ _ => by rw [htsc]⟩
    rw [htsc]
    have hcs : 0 < (o.compressed_size : ℚ) := by
      exact_mod_cast Nat.pos_of_ne_zero hts
    have hosq : 0 < (o.original_size : ℚ) := by exact_mod_cast hos
    have hdiv : 0 < (o.compressed_size : ℚ) / (o.original_size : ℚ) :=
      div_pos hcs hosq
    linarith
  · rw [if_neg hos]
    exact ⟨by norm_num, fun h0 => absurd h0 hlvl, fun _ hos2 => absurd hos2 hos⟩

/-- Counterexample to C9: an incompressible 2 MiB file whose level-4
artifact is larger than the original.  The round trip verifies, a record is
emitted, and its compression ratio is negative — not in `[0, 100)`. -/
theorem claim_C9_counterexample :
    attempt_level (some 30) 6 c9_attempt = 4 ∧
    run_performance_test true true (some 30) 6 [c9_attempt] = ([c9_record], 0) ∧
    c9_record.compression_ratio_percent < 0 := by
  have h1 : attempt_level (some 30) 6 c9_attempt = 4 := by
    norm_num [attempt_level, ENABLE_ADAPTIVE_COMPRESSION,
      select_compression_level_for_file, throughput_guard, size_adjusted_level,
      compression_speeds, c9_attempt, base_ok_attempt]
  have h2 : run_attempt true true 4 c9_attempt = some c9_record := by
    norm_num [run_attempt, c9_attempt, c9_record, base_ok_attempt,
      attempt_transfer_size, attempt_ratio_pct, verify_irods_upload,
      verify_local_download, TransferRecord.mk.injEq]
  refine ⟨h1, ?_, by norm_num [c9_record]⟩
  unfold run_performance_test
  simp only [List.foldl_cons, List.foldl_nil]
  unfold exec_step
  rw [h1, h2]
  rfl

/-- Witness for the amended C9: the record emitted for `c9_attempt` at
level 4 has ratio below 100 (indeed negative). -/
theorem claim_C9_witness :
    run_attempt true true 4 c9_attempt = some c9_record ∧
    c9_record.compression_ratio_percent < 100 := by
  have h2 : run_attempt true true 4 c9_attempt = some c9_record := by
    norm_num [run_attempt, c9_attempt, c9_record, base_ok_attempt,
      attempt_transfer_size, attempt_ratio_pct, verify_irods_upload,
      verify_local_download, TransferRecord.mk.injEq]
  exact ⟨h2, (claim_C9_amended_ratio_bounds true true 4 c9_attempt c9_record h2).1⟩

/-- C6: the probe fails (returns no estimate) exactly when zero samples
succeeded; with at least one success it returns the arithmetic means of
upload speed, download speed and latency over exactly the successful
samples; and on probe failure the caller disables compression (level 0)
instead of selecting a level. -/
theorem claim_C6_probe_contract :
    (∀ samples : List (Option ProbeSample),
      (test_network_speed samples = none ↔ samples.filterMap id = [])) ∧
    (∀ samples : List (Option ProbeSample), samples.filterMap id ≠ [] →
      test_network_speed samples = some
        ⟨((samples.filterMap id).map sample_upload_mbps).sum /
            ((samples.filterMap id).length : ℚ),
          ((samples.filterMap id).map sample_download_mbps).sum /
            ((samples.filterMap id).length : ℚ),
          ((samples.filterMap id).map sample_latency_ms).sum /
            ((samples.filterMap id).length : ℚ)⟩) ∧
    main_compression_decision none = 0 ∧
    (∀ e : NetworkEstimate, main_compression_decision (some e) =
      select_compression_level ((e.avg_upload_mbps + e.avg_download_mbps) / 2)) := by
  refine ⟨?_, ?_, rfl, fun e => rfl⟩
  · intro samples
    simp only [test_network_speed]
    split_ifs with hif
    · simp only [true_iff]
      exact List.map_eq_nil_iff.mp (List.isEmpty_iff.mp hif)
    · simp only [reduceCtorEq, false_iff]
      intro hnil
      exact hif (by simp [hnil])
  · intro samples hne
    simp only [test_network_speed]
    rw [if_neg (by simp [List.isEmpty_iff, List.map_eq_nil_iff, hne])]
    simp [List.length_map]

/-- Witness for C6: one successful sample (1 MiB uploaded in 1 s,
downloaded in 2 s) and one failed sample yield the estimate
(1 MB/s, 0.5 MB/s, 1500 ms). -/
theorem claim_C6_witness :
    test_network_speed [some ⟨1048576, 1, 2⟩, none] =
      some ⟨1, 1 / 2, 1500⟩ := by
  have h := claim_C6_probe_contract.2.1 [some ⟨1048576, 1, 2⟩, none]
    (by simp [List.filterMap_cons, List.filterMap_nil])
  rw [h]
  norm_num [sample_upload_mbps, sample_download_mbps, sample_latency_ms,
    List.filterMap_cons, List.filterMap_nil, NetworkEstimate.mk.injEq]

/-- Updating a bucket does not change the grouping's key sequence. -/
theorem insert_record_update_fst (r : TransferRecord) :
    ∀ l : List (String × List TransferRecord),
      (l.map (fun p => if p.1 = r.filename then (p.1, p.2 ++ [r]) else p)).map
        Prod.fst = l.map Prod.fst := by
  intro l
  induction l with
  | nil => rfl
  | cons p t ih =>
    simp only [List.map_cons]
    rw [ih]
    congr 1
    split <;> rfl

/-- One grouping step appends the filename to the key sequence exactly when
it is new. -/
theorem insert_record_fst (acc : List (String × List TransferRecord))
    (r : TransferRecord) :
    (insert_record acc r).map Prod.fst =
      if r.filename ∈ acc.map Prod.fst then acc.map Prod.fst
      else acc.map Prod.fst ++ [r.filename] := by
  unfold insert_record
  have hmem : (acc.any fun p => p.1 == r.filename) = true ↔
      r.filename ∈ acc.map Prod.fst := by
    rw [List.any_eq_true]
    constructor
    · rintro ⟨p, hp, hpe⟩
      rw [List.mem_map]
      exact ⟨p, hp, beq_iff_eq.mp hpe⟩
    · rw [List.mem_map]
      rintro ⟨p, hp, hpe⟩
      exact ⟨p, hp, beq_iff_eq.mpr hpe⟩
  by_cases hc : (acc.any fun p => p.1 == r.filename) = true
  · rw [if_pos hc, if_pos (hmem.mp hc), insert_record_update_fst]
  · rw [if_neg hc, if_neg (fun hm => hc (hmem.mpr hm))]
    simp

/-- The keys of the grouping fold are the filenames in first-seen order. -/
theorem group_by_filename_fst :
    ∀ (rs : List TransferRecord) (acc : List (String × List TransferRecord)),
      (rs.foldl insert_record acc).map Prod.fst =
        rs.foldl (fun a r => if r.filename ∈ a then a else a ++ [r.filename])
          (acc.map Prod.fst) := by
  intro rs
  induction rs with
  | nil => intro acc; rfl
  | cons r t ih =>
    intro acc
    rw [List.foldl_cons, List.foldl_cons, ih, insert_record_fst]

/-- C8: the aggregator returns `none` on an empty record list; on a
singleton every average field equals the record's corresponding field; and
`files_tested` lists the filenames of the input records in first-seen
order.  (Being a function of its input in this embedding, the aggregation
mutates nothing and is repeatable.) -/
theorem claim_C8_aggregator :
    calculate_aggregate_statistics [] = none ∧
    (∀ r : TransferRecord,
      (calculate_aggregate_statistics [r]).map AggregateStats.avg_upload_time =
        some r.upload_time ∧
      (calculate_aggregate_statistics [r]).map AggregateStats.avg_download_time =
        some r.download_time ∧
      (calculate_aggregate_statistics [r]).map AggregateStats.avg_upload_throughput =
        some r.upload_throughput_mbps ∧
      (calculate_aggregate_statistics [r]).map AggregateStats.avg_download_throughput =
        some r.download_throughput_mbps) ∧
    (∀ rs : List TransferRecord,
      (calculate_aggregate_statistics rs).map AggregateStats.files_tested =
        if rs = [] then none else some (first_seen_filenames rs)) := by
  refine ⟨rfl, ?_, ?_⟩
  · intro r
    have hne : ([r] : List TransferRecord) ≠ [] := by simp
    unfold calculate_aggregate_statistics
    rw [if_neg hne]
    refine ⟨?_, ?_, ?_, ?_⟩ <;> simp
  · intro rs
    by_cases h : rs = []
    · subst h
      rfl
    · rw [if_neg h]
      unfold calculate_aggregate_statistics
      rw [if_neg h]
      simp only [Option.map_some']
      have hg := group_by_filename_fst rs []
      unfold group_by_filename first_seen_filenames
      simpa using hg

/-- Witness for C8: three records with filenames b, a, b aggregate to
`files_tested = [b, a]`. -/
theorem claim_C8_witness :
    (calculate_aggregate_statistics
        [sample_record_b, sample_record_a, sample_record_b]).map
      AggregateStats.files_tested = some ["b", "a"] := by
  have h := claim_C8_aggregator.2.2
    [sample_record_b, sample_record_a, sample_record_b]
  rw [if_neg (by simp)] at h
  rw [h]
  simp [first_seen_filenames, sample_record_b, sample_record_a]
